import Mathlib

/-!
Verification of the class-loading and method-resolution core of the Jacobin JVM
(packages classloader and util), against its natural-language specification.

The Go sources are shallowly embedded: pure functions become Lean functions,
the global stores (method area, method table, statics) become explicit values
threaded through the functions, machine integers become Nat/Int, fallible Go
code returns Except/Option, and a call to shutdown.Exit is a terminal outcome.
Helpers whose definitions are not part of the given sources (intFrom2Bytes,
cfe, parseConstantPool, LoadClassFromNameOnly, WaitForClassStatus) are
modelled from the specification and say so in their doc comments.
-/

namespace Jacobin

deriving instance DecidableEq for Except

/-! ## Error kinds (specification §7) -/

/-- The error taxonomy of §7, plus a marker for a Go runtime fault caused by an
unchecked slice access (which is not an error value at all in the source, but a
crash; it is kept distinct from every §7 kind). -/
inductive ErrKind where
  | classFormatError
  | unsupportedClassVersion
  | classNotFound
  | noSuchMethod
  | noMainMethod
  | internalInvariantViolation
  | indexOutOfRange
  deriving DecidableEq

structure Err where
  kind : ErrKind
  msg : String
  deriving DecidableEq

/-- Modelled from the spec: the helper cfe is not among the given sources; every
parser failure in the sources is built with it, the doc comment of parse says
the parser reports ClassFormatError for anything unexpected, and §7 classes
every structural parse failure (bad magic, truncated buffer, unknown CP tag,
out-of-range index, empty non-Object superclass) as ClassFormatError. So cfe
constructs an error of kind classFormatError carrying its message. -/
def cfe (msg : String) : Err := ⟨ErrKind.classFormatError, msg⟩

/-- Modelled from the spec: the globals record (globals.GetInstance is not
among the given sources) carries the configured maximum supported class-file
major version MaxJavaVersionRaw and the matching release number
MaxJavaVersion used in the version-gate error message. -/
structure Globals where
  maxJavaVersion : Nat
  maxJavaVersionRaw : Nat
  deriving DecidableEq

/-! ## Binary reader (specification §4.1) -/

/-- Modelled from the spec: intFrom2Bytes (package util, not among the given
sources) is the bounded read of a 2-byte big-endian unsigned integer at the
given offset; a read whose range exceeds the buffer is a ClassFormatError. -/
def intFrom2Bytes (bytes : List Nat) (pos : Nat) : Except Err Nat :=
  match bytes.get? pos, bytes.get? (pos + 1) with
  | some hi, some lo => .ok (hi * 256 + lo)
  | _, _ => .error (cfe "invalid offset into class file")

/-- Modelled from the spec: the bounded read of a single byte (the CP tag). -/
def byteFrom (bytes : List Nat) (pos : Nat) : Except Err Nat :=
  match bytes.get? pos with
  | some b => .ok b
  | none => .error (cfe "invalid offset into class file")

/-- Modelled from the spec: bounded read of a 4-byte big-endian unsigned
integer. -/
def intFrom4Bytes (bytes : List Nat) (pos : Nat) : Except Err Nat :=
  match intFrom2Bytes bytes pos, intFrom2Bytes bytes (pos + 2) with
  | .ok hi, .ok lo => .ok (hi * 65536 + lo)
  | _, _ => .error (cfe "invalid offset into class file")

/-- Two's-complement reading of a 32-bit raw value. -/
def toSigned32 (v : Nat) : Int :=
  if 2 ^ 31 ≤ v then (v : Int) - 2 ^ 32 else (v : Int)

/-- Two's-complement reading of a 64-bit raw value. -/
def toSigned64 (v : Nat) : Int :=
  if 2 ^ 63 ≤ v then (v : Int) - 2 ^ 64 else (v : Int)

/-! ## Constant-pool tags

The numeric tags, as listed in the source (classes.go keeps the list in a
comment synchronized with cpParser.go) and in §3 of the specification. -/

def Dummy : Nat := 0
def UTF8 : Nat := 1
def IntConst : Nat := 3
def FloatConst : Nat := 4
def LongConst : Nat := 5
def DoubleConst : Nat := 6
def ClassRef : Nat := 7
def StringConst : Nat := 8
def FieldRef : Nat := 9
def MethodRef : Nat := 10
def Interface : Nat := 11
def NameAndType : Nat := 12
def MethodHandle : Nat := 15
def MethodType : Nat := 16
def DynamicTag : Nat := 17
def InvokeDynamicTag : Nat := 18
def ModuleTag : Nat := 19
def PackageTag : Nat := 20

/-! ## Parser data model (parsedClass, the transient parser output) -/

/-- A primary-index entry of the parser's constant pool: the cpEntry struct of
cpParser.go, with fields entryType and slot (usage visible in parseClassName
and parseSuperClassName). -/
structure cpEntry where
  entryType : Nat
  slot : Nat
  deriving DecidableEq

/-- A class-reference backing entry; parseClassName reads its field index. -/
structure classRefEntry where
  index : Nat
  deriving DecidableEq

/-- A UTF8 backing entry; parseClassName reads its field content. -/
structure utf8Entry where
  content : String
  deriving DecidableEq

/-- The parser output (§3 Parsed Class): version, constant-pool count, the
primary index sequence plus one typed backing sequence per tag, the
access-flag bitmask and its decoded booleans, this-class name and super-class
name. IEEE-754 payloads are kept as raw bit patterns. -/
structure parsedClass where
  javaVersion : Nat := 0
  cpCount : Nat := 0
  cpIndex : List cpEntry := []
  utf8Refs : List utf8Entry := []
  classRefs : List classRefEntry := []
  intConsts : List Int := []
  floats : List Nat := []
  longConsts : List Int := []
  doubles : List Nat := []
  stringRefs : List Nat := []
  fieldRefs : List (Nat × Nat) := []
  methodRefs : List (Nat × Nat) := []
  interfaceRefs : List (Nat × Nat) := []
  nameAndTypes : List (Nat × Nat) := []
  methodHandles : List (Nat × Nat) := []
  methodTypes : List Nat := []
  dynamics : List (Nat × Nat) := []
  invokeDynamics : List (Nat × Nat) := []
  moduleRefs : List Nat := []
  packageRefs : List Nat := []
  accessFlags : Nat := 0
  classIsPublic : Bool := false
  classIsFinal : Bool := false
  classIsSuper : Bool := false
  classIsInterface : Bool := false
  classIsAbstract : Bool := false
  classIsSynthetic : Bool := false
  classIsAnnotation : Bool := false
  classIsEnum : Bool := false
  classIsModule : Bool := false
  className : String := ""
  superClass : String := ""
  deriving DecidableEq

/-! ## Parser subroutines (javaLangClass.go, second part of the file) -/

/-- parseMagicNumber: the first four bytes must be 0xCAFEBABE. -/
def parseMagicNumber (bytes : List Nat) : Except Err Unit :=
  if bytes.length < 4 then
    .error (cfe "invalid magic number")
  else if bytes.getD 0 0 != 0xCA || bytes.getD 1 0 != 0xFE ||
          bytes.getD 2 0 != 0xBA || bytes.getD 3 0 != 0xBE then
    .error (cfe "invalid magic number")
  else
    .ok ()

/-- parseJavaVersionNumber: reads the major version at offset 6; a version
above the configured maximum is an error (built with cfe in the source);
otherwise the version is recorded in the parsed class. -/
def parseJavaVersionNumber (g : Globals) (bytes : List Nat) (klass : parsedClass) :
    Except Err parsedClass :=
  match intFrom2Bytes bytes 6 with
  | .error e => .error e
  | .ok version =>
    if g.maxJavaVersionRaw < version then
      .error (cfe ("Jacobin supports only Java versions through Java " ++
        toString g.maxJavaVersion))
    else
      .ok { klass with javaVersion := version }

/-- getConstantPoolCount: reads the 2-byte count at offset 8; a failed read or
a count of at most 2 is the CP-size ClassFormatError (a failed read leaves the
Go count at its zero value, which the message prints). -/
def getConstantPoolCount (bytes : List Nat) (klass : parsedClass) :
    Except Err parsedClass :=
  match intFrom2Bytes bytes 8 with
  | .error _ =>
    .error (cfe ("Invalid number of entries in constant pool: " ++ toString 0))
  | .ok cpEntryCount =>
    if cpEntryCount ≤ 2 then
      .error (cfe ("Invalid number of entries in constant pool: " ++
        toString cpEntryCount))
    else
      .ok { klass with cpCount := cpEntryCount }

/-! Appending one decoded entry of each kind to the parsed class: the payload
goes to its typed backing sequence and the primary index records
(tag, slot-in-backing-sequence). -/

def cpAddUtf8 (k : parsedClass) (content : String) : parsedClass :=
  { k with cpIndex := k.cpIndex ++ [⟨UTF8, k.utf8Refs.length⟩],
           utf8Refs := k.utf8Refs ++ [⟨content⟩] }

def cpAddIntConst (k : parsedClass) (v : Int) : parsedClass :=
  { k with cpIndex := k.cpIndex ++ [⟨IntConst, k.intConsts.length⟩],
           intConsts := k.intConsts ++ [v] }

def cpAddFloat (k : parsedClass) (raw : Nat) : parsedClass :=
  { k with cpIndex := k.cpIndex ++ [⟨FloatConst, k.floats.length⟩],
           floats := k.floats ++ [raw] }

/-- A Long occupies two successive primary-index slots; the second is a dummy. -/
def cpAddLong (k : parsedClass) (v : Int) : parsedClass :=
  { k with cpIndex := k.cpIndex ++ [⟨LongConst, k.longConsts.length⟩, ⟨Dummy, 0⟩],
           longConsts := k.longConsts ++ [v] }

/-- A Double occupies two successive primary-index slots; the second is a dummy. -/
def cpAddDouble (k : parsedClass) (raw : Nat) : parsedClass :=
  { k with cpIndex := k.cpIndex ++ [⟨DoubleConst, k.doubles.length⟩, ⟨Dummy, 0⟩],
           doubles := k.doubles ++ [raw] }

def cpAddClassRef (k : parsedClass) (idx : Nat) : parsedClass :=
  { k with cpIndex := k.cpIndex ++ [⟨ClassRef, k.classRefs.length⟩],
           classRefs := k.classRefs ++ [⟨idx⟩] }

def cpAddStringConst (k : parsedClass) (idx : Nat) : parsedClass :=
  { k with cpIndex := k.cpIndex ++ [⟨StringConst, k.stringRefs.length⟩],
           stringRefs := k.stringRefs ++ [idx] }

def cpAddFieldRef (k : parsedClass) (ci nti : Nat) : parsedClass :=
  { k with cpIndex := k.cpIndex ++ [⟨FieldRef, k.fieldRefs.length⟩],
           fieldRefs := k.fieldRefs ++ [(ci, nti)] }

def cpAddMethodRef (k : parsedClass) (ci nti : Nat) : parsedClass :=
  { k with cpIndex := k.cpIndex ++ [⟨MethodRef, k.methodRefs.length⟩],
           methodRefs := k.methodRefs ++ [(ci, nti)] }

def cpAddInterfaceRef (k : parsedClass) (ci nti : Nat) : parsedClass :=
  { k with cpIndex := k.cpIndex ++ [⟨Interface, k.interfaceRefs.length⟩],
           interfaceRefs := k.interfaceRefs ++ [(ci, nti)] }

def cpAddNameAndType (k : parsedClass) (ni di : Nat) : parsedClass :=
  { k with cpIndex := k.cpIndex ++ [⟨NameAndType, k.nameAndTypes.length⟩],
           nameAndTypes := k.nameAndTypes ++ [(ni, di)] }

def cpAddMethodHandle (k : parsedClass) (kind ri : Nat) : parsedClass :=
  { k with cpIndex := k.cpIndex ++ [⟨MethodHandle, k.methodHandles.length⟩],
           methodHandles := k.methodHandles ++ [(kind, ri)] }

def cpAddMethodType (k : parsedClass) (di : Nat) : parsedClass :=
  { k with cpIndex := k.cpIndex ++ [⟨MethodType, k.methodTypes.length⟩],
           methodTypes := k.methodTypes ++ [di] }

def cpAddDynamic (k : parsedClass) (bi nti : Nat) : parsedClass :=
  { k with cpIndex := k.cpIndex ++ [⟨DynamicTag, k.dynamics.length⟩],
           dynamics := k.dynamics ++ [(bi, nti)] }

def cpAddInvokeDynamic (k : parsedClass) (bi nti : Nat) : parsedClass :=
  { k with cpIndex := k.cpIndex ++ [⟨InvokeDynamicTag, k.invokeDynamics.length⟩],
           invokeDynamics := k.invokeDynamics ++ [(bi, nti)] }

def cpAddModule (k : parsedClass) (idx : Nat) : parsedClass :=
  { k with cpIndex := k.cpIndex ++ [⟨ModuleTag, k.moduleRefs.length⟩],
           moduleRefs := k.moduleRefs ++ [idx] }

def cpAddPackage (k : parsedClass) (idx : Nat) : parsedClass :=
  { k with cpIndex := k.cpIndex ++ [⟨PackageTag, k.packageRefs.length⟩],
           packageRefs := k.packageRefs ++ [idx] }

/-- Modelled from the spec: decoding of a single constant-pool entry (the
body of the entry loop of parseConstantPool, which is not among the given
sources). Reads the 1-byte tag at pos + 1 and the payload per the §3 table,
appends the payload, and returns the updated class, the offset of the last
consumed byte, and the number of primary-index slots occupied (2 for a Long
or Double, else 1); an unrecognized tag is a ClassFormatError. -/
def parseCPEntryOne (bytes : List Nat) (klass : parsedClass) (pos : Nat) :
    Except Err (parsedClass × Nat × Nat) :=
  match byteFrom bytes (pos + 1) with
  | .error e => .error e
  | .ok tag =>
    match tag with
    | 1 =>  -- UTF8
      match intFrom2Bytes bytes (pos + 2) with
      | .error e => .error e
      | .ok length =>
        if bytes.length < pos + 4 + length then
          .error (cfe "truncated UTF8 entry in constant pool")
        else
          let content := String.mk (((bytes.drop (pos + 4)).take length).map Char.ofNat)
          .ok (cpAddUtf8 klass content, pos + 3 + length, 1)
    | 3 =>  -- IntConst
      match intFrom4Bytes bytes (pos + 2) with
      | .error e => .error e
      | .ok raw => .ok (cpAddIntConst klass (toSigned32 raw), pos + 5, 1)
    | 4 =>  -- FloatConst
      match intFrom4Bytes bytes (pos + 2) with
      | .error e => .error e
      | .ok raw => .ok (cpAddFloat klass raw, pos + 5, 1)
    | 5 =>  -- LongConst
      match intFrom4Bytes bytes (pos + 2), intFrom4Bytes bytes (pos + 6) with
      | .ok hi, .ok lo =>
        .ok (cpAddLong klass (toSigned64 (hi * 4294967296 + lo)), pos + 9, 2)
      | _, _ => .error (cfe "invalid offset into class file")
    | 6 =>  -- DoubleConst
      match intFrom4Bytes bytes (pos + 2), intFrom4Bytes bytes (pos + 6) with
      | .ok hi, .ok lo => .ok (cpAddDouble klass (hi * 4294967296 + lo), pos + 9, 2)
      | _, _ => .error (cfe "invalid offset into class file")
    | 7 =>  -- ClassRef
      match intFrom2Bytes bytes (pos + 2) with
      | .error e => .error e
      | .ok idx => .ok (cpAddClassRef klass idx, pos + 3, 1)
    | 8 =>  -- StringConst
      match intFrom2Bytes bytes (pos + 2) with
      | .error e => .error e
      | .ok idx => .ok (cpAddStringConst klass idx, pos + 3, 1)
    | 9 =>  -- FieldRef
      match intFrom2Bytes bytes (pos + 2), intFrom2Bytes bytes (pos + 4) with
      | .ok ci, .ok nti => .ok (cpAddFieldRef klass ci nti, pos + 5, 1)
      | _, _ => .error (cfe "invalid offset into class file")
    | 10 =>  -- MethodRef
      match intFrom2Bytes bytes (pos + 2), intFrom2Bytes bytes (pos + 4) with
      | .ok ci, .ok nti => .ok (cpAddMethodRef klass ci nti, pos + 5, 1)
      | _, _ => .error (cfe "invalid offset into class file")
    | 11 =>  -- Interface
      match intFrom2Bytes bytes (pos + 2), intFrom2Bytes bytes (pos + 4) with
      | .ok ci, .ok nti => .ok (cpAddInterfaceRef klass ci nti, pos + 5, 1)
      | _, _ => .error (cfe "invalid offset into class file")
    | 12 =>  -- NameAndType
      match intFrom2Bytes bytes (pos + 2), intFrom2Bytes bytes (pos + 4) with
      | .ok ni, .ok di => .ok (cpAddNameAndType klass ni di, pos + 5, 1)
      | _, _ => .error (cfe "invalid offset into class file")
    | 15 =>  -- MethodHandle
      match byteFrom bytes (pos + 2), intFrom2Bytes bytes (pos + 3) with
      | .ok kind, .ok ri => .ok (cpAddMethodHandle klass kind ri, pos + 4, 1)
      | _, _ => .error (cfe "invalid offset into class file")
    | 16 =>  -- MethodType
      match intFrom2Bytes bytes (pos + 2) with
      | .error e => .error e
      | .ok di => .ok (cpAddMethodType klass di, pos + 3, 1)
    | 17 =>  -- Dynamic
      match intFrom2Bytes bytes (pos + 2), intFrom2Bytes bytes (pos + 4) with
      | .ok bi, .ok nti => .ok (cpAddDynamic klass bi nti, pos + 5, 1)
      | _, _ => .error (cfe "invalid offset into class file")
    | 18 =>  -- InvokeDynamic
      match intFrom2Bytes bytes (pos + 2), intFrom2Bytes bytes (pos + 4) with
      | .ok bi, .ok nti => .ok (cpAddInvokeDynamic klass bi nti, pos + 5, 1)
      | _, _ => .error (cfe "invalid offset into class file")
    | 19 =>  -- Module
      match intFrom2Bytes bytes (pos + 2) with
      | .error e => .error e
      | .ok idx => .ok (cpAddModule klass idx, pos + 3, 1)
    | 20 =>  -- Package
      match intFrom2Bytes bytes (pos + 2) with
      | .error e => .error e
      | .ok idx => .ok (cpAddPackage klass idx, pos + 3, 1)
    | _ =>
      .error (cfe "unrecognized tag in constant pool")

/-- Modelled from the spec: the entry loop of parseConstantPool (not among
the given sources). Decodes one entry per remaining primary-index slot; a
Long or Double occupies two successive slots (the second, a dummy, is
skipped); pos is the offset of the last consumed byte. -/
def parseCPEntries (bytes : List Nat) (klass : parsedClass) (slots : Nat) (pos : Nat) :
    Except Err (Nat × parsedClass) :=
  match slots with
  | 0 => .ok (pos, klass)
  | n + 1 =>
    match parseCPEntryOne bytes klass pos with
    | .error e => .error e
    | .ok (k2, pos2, consumed) =>
      if consumed = 2 then
        match n with
        | 0 => .ok (pos2, k2)
        | m + 1 => parseCPEntries bytes k2 m pos2
      else
        parseCPEntries bytes k2 n pos2

/-- Modelled from the spec: parseConstantPool (not among the given sources)
decodes entries 1 .. count-1 starting right after the 2-byte count (the last
byte consumed before the entries is offset 9), with the reserved dummy entry
occupying primary-index slot 0, and enforces the §4.2 edge-case policy that an
out-of-range CP index stored in a class-reference entry is a ClassFormatError.
It returns the offset of the last consumed byte together with the updated
class. -/
def parseConstantPool (bytes : List Nat) (klass : parsedClass) :
    Except Err (Nat × parsedClass) :=
  match parseCPEntries bytes { klass with cpIndex := [⟨Dummy, 0⟩] } (klass.cpCount - 1) 9 with
  | .error e => .error e
  | .ok (pos, k1) =>
    if k1.classRefs.all (fun r => decide (1 ≤ r.index ∧ r.index < k1.cpCount)) then
      .ok (pos, k1)
    else
      .error (cfe "invalid index into CP in class reference")

/-- parseAccessFlags: reads the 2-byte access-flag word at loc + 1 and decodes
each bit into its boolean (table 4.1-B values, as in the source). -/
def parseAccessFlags (bytes : List Nat) (loc : Nat) (klass : parsedClass) :
    Except Err (Nat × parsedClass) :=
  match intFrom2Bytes bytes (loc + 1) with
  | .error _ => .error (cfe "Invalid get of class access flags")
  | .ok accessFlags =>
    .ok (loc + 2, { klass with
      accessFlags := accessFlags,
      classIsPublic := decide (0 < accessFlags &&& 0x0001),
      classIsFinal := decide (0 < accessFlags &&& 0x0010),
      classIsSuper := decide (0 < accessFlags &&& 0x0020),
      classIsInterface := decide (0 < accessFlags &&& 0x0200),
      classIsAbstract := decide (0 < accessFlags &&& 0x0400),
      classIsSynthetic := decide (0 < accessFlags &&& 0x1000),
      classIsAnnotation := decide (0 < accessFlags &&& 0x2000),
      classIsEnum := decide (0 < accessFlags &&& 0x4000),
      classIsModule := decide (0 < accessFlags &&& 0x8000) })

/-- parseClassName: reads a 2-byte CP index at loc + 1, range-checks it against
the primary index, requires a ClassRef there, follows it to a UTF8 entry and
records that string as the class name. The source performs the classRefs,
cpIndex and utf8Refs dereferences without bounds checks; an out-of-range value
there is a Go runtime fault, modelled by the indexOutOfRange outcome. No check
is made that the resulting name is non-empty. -/
def parseClassName (bytes : List Nat) (loc : Nat) (klass : parsedClass) :
    Except Err (Nat × parsedClass) :=
  match intFrom2Bytes bytes (loc + 1) with
  | .error _ => .error (cfe "error obtaining index for class name")
  | .ok index =>
    if index < 1 ∨ klass.cpIndex.length - 1 < index then
      .error (cfe "invalid index into CP for class name")
    else
      match klass.cpIndex.get? index with
      | none => .error ⟨ErrKind.indexOutOfRange, "cpIndex"⟩
      | some pointedToClassRef =>
        if pointedToClassRef.entryType ≠ ClassRef then
          .error (cfe "invalid entry for class name")
        else
          match klass.classRefs.get? pointedToClassRef.slot with
          | none => .error ⟨ErrKind.indexOutOfRange, "classRefs"⟩
          | some cref =>
            match klass.cpIndex.get? cref.index with
            | none => .error ⟨ErrKind.indexOutOfRange, "cpIndex"⟩
            | some target =>
              if target.entryType ≠ UTF8 then
                .error (cfe "error classRef in CP does not point to a UTF-8 string")
              else
                match klass.utf8Refs.get? target.slot with
                | none => .error ⟨ErrKind.indexOutOfRange, "utf8Refs"⟩
                | some u =>
                  .ok (loc + 2, { klass with className := u.content })

/-- parseSuperClassName: identical discipline to parseClassName, with one
extra check: an empty superclass name is an error unless the class being
parsed is java/lang/Object (the error message keeps the typo of the source). -/
def parseSuperClassName (bytes : List Nat) (loc : Nat) (klass : parsedClass) :
    Except Err (Nat × parsedClass) :=
  match intFrom2Bytes bytes (loc + 1) with
  | .error _ => .error (cfe "error obtaining index for superclass name")
  | .ok index =>
    if index < 1 ∨ klass.cpIndex.length - 1 < index then
      .error (cfe "invalid index into CP for superclass name")
    else
      match klass.cpIndex.get? index with
      | none => .error ⟨ErrKind.indexOutOfRange, "cpIndex"⟩
      | some pointedToClassRef =>
        if pointedToClassRef.entryType ≠ ClassRef then
          .error (cfe "invalid entry for superclass name")
        else
          match klass.classRefs.get? pointedToClassRef.slot with
          | none => .error ⟨ErrKind.indexOutOfRange, "classRefs"⟩
          | some cref =>
            match klass.cpIndex.get? cref.index with
            | none => .error ⟨ErrKind.indexOutOfRange, "cpIndex"⟩
            | some target =>
              if target.entryType ≠ UTF8 then
                .error (cfe "error classRef in CP does not point to a UTF-8 string")
              else
                match klass.utf8Refs.get? target.slot with
                | none => .error ⟨ErrKind.indexOutOfRange, "utf8Refs"⟩
                | some u =>
                  if u.content = "" ∧ klass.className ≠ "java/lang/Object" then
                    .error (cfe "Invaild empty string for superclass name")
                  else
                    .ok (loc + 2, { klass with superClass := u.content })

/-- parse: the fixed-order parse driver of the source. Note the early return
after parseConstantPool: a nil error together with pos < 10 returns the
partial class as a success, exactly as the source does. -/
def parse (g : Globals) (rawBytes : List Nat) : Except Err parsedClass :=
  match parseMagicNumber rawBytes with
  | .error e => .error e
  | .ok _ =>
  match parseJavaVersionNumber g rawBytes {} with
  | .error e => .error e
  | .ok k1 =>
  match getConstantPoolCount rawBytes k1 with
  | .error e => .error e
  | .ok k2 =>
  match parseConstantPool rawBytes k2 with
  | .error e => .error e
  | .ok (pos, k3) =>
  if pos < 10 then .ok k3
  else
  match parseAccessFlags rawBytes pos k3 with
  | .error e => .error e
  | .ok (pos2, k4) =>
  match parseClassName rawBytes pos2 k4 with
  | .error e => .error e
  | .ok (pos3, k5) =>
  match parseSuperClassName rawBytes pos3 k5 with
  | .error e => .error e
  | .ok (_, k6) => .ok k6

/-! ## Method-area data model (classes.go) -/

/-- The structure of many attributes; content is raw bytes (Attr). -/
structure Attr where
  AttrName : Nat
  AttrSize : Nat
  AttrContent : List Nat
  deriving DecidableEq

/-- Exception-related data in a Code attribute (CodeException). -/
structure CodeException where
  StartPc : Nat
  EndPc : Nat
  HandlerPc : Nat
  CatchType : Nat
  deriving DecidableEq

/-- The MethodParameters method attribute (ParamAttrib). -/
structure ParamAttrib where
  Name : String
  AccessFlags : Nat
  deriving DecidableEq

/-- The code attribute of a method (CodeAttrib). -/
structure CodeAttrib where
  MaxStack : Nat
  MaxLocals : Nat
  Code : List Nat
  Exceptions : List CodeException
  Attributes : List Attr
  deriving DecidableEq

/-- A method of a class, incl. constructors (Method). Name and Desc are
indices of UTF-8 entries in the CP. -/
structure Method where
  AccessFlags : Nat
  Name : Nat
  Desc : Nat
  CodeAttr : CodeAttrib
  Attributes : List Attr
  Exceptions : List Nat
  Parameters : List ParamAttrib
  Deprecated : Bool
  deriving DecidableEq

/-- A field of a class (Field). -/
structure Field where
  AccessFlags : Nat
  Name : Nat
  Desc : Nat
  IsStatic : Bool
  Attributes : List Attr
  deriving DecidableEq

/-- A bootstrap method (BootstrapMethod). -/
structure BootstrapMethod where
  MethodRef : Nat
  Args : List Nat
  deriving DecidableEq

/-- A primary-index entry of the runtime constant pool (CpEntry of classes.go;
the source field Type is a Lean keyword, so it is written Typ here). -/
structure CpEntry where
  Typ : Nat
  Slot : Nat
  deriving DecidableEq

structure FieldRefEntry where
  ClassIndex : Nat
  NameAndType : Nat
  deriving DecidableEq

structure MethodRefEntry where
  ClassIndex : Nat
  NameAndType : Nat
  deriving DecidableEq

structure InterfaceRefEntry where
  ClassIndex : Nat
  NameAndType : Nat
  deriving DecidableEq

structure NameAndTypeEntry where
  NameIndex : Nat
  DescIndex : Nat
  deriving DecidableEq

structure MethodHandleEntry where
  RefKind : Nat
  RefIndex : Nat
  deriving DecidableEq

structure DynamicEntry where
  BootstrapIndex : Nat
  NameAndType : Nat
  deriving DecidableEq

structure InvokeDynamicEntry where
  BootstrapIndex : Nat
  NameAndType : Nat
  deriving DecidableEq

/-- The runtime constant pool (CPool of classes.go): the primary index
sequence CpIndex plus one typed backing sequence per tag. IEEE-754 payloads
are kept as raw bit patterns. -/
structure CPool where
  CpIndex : List CpEntry := []
  ClassRefs : List Nat := []
  Doubles : List Nat := []
  Dynamics : List DynamicEntry := []
  FieldRefs : List FieldRefEntry := []
  Floats : List Nat := []
  IntConsts : List Int := []
  InterfaceRefs : List InterfaceRefEntry := []
  InvokeDynamics : List InvokeDynamicEntry := []
  LongConsts : List Int := []
  MethodHandles : List MethodHandleEntry := []
  MethodRefs : List MethodRefEntry := []
  MethodTypes : List Nat := []
  NameAndTypes : List NameAndTypeEntry := []
  Utf8Refs : List String := []
  deriving DecidableEq

/-- The class-level access flags (AccessFlags of classes.go). -/
structure AccessFlags where
  ClassIsPublic : Bool := false
  ClassIsFinal : Bool := false
  ClassIsSuper : Bool := false
  ClassIsInterface : Bool := false
  ClassIsAbstract : Bool := false
  ClassIsSynthetic : Bool := false
  ClassIsAnnotation : Bool := false
  ClassIsEnum : Bool := false
  ClassIsModule : Bool := false
  deriving DecidableEq

/-- The loaded-class payload (ClData). The Go map MethodTable is modelled as
an association list keyed by name-plus-descriptor. -/
structure ClData where
  Name : String := ""
  Superclass : String := ""
  Module : String := ""
  Pkg : String := ""
  Interfaces : List Nat := []
  Fields : List Field := []
  MethodTable : List (String × Method) := []
  Methods : List Method := []
  Attributes : List Attr := []
  SourceFile : String := ""
  Bootstraps : List BootstrapMethod := []
  CP : CPool := {}
  Access : AccessFlags := {}
  ClInit : Nat := 0
  deriving DecidableEq

/-- A method-area entry (Klass). Status is the lifecycle byte
(I, F, V, L, N). The source holds Data behind a pointer; the claims below
only exercise classes whose Data is populated, so it is embedded directly. -/
structure Klass where
  Status : Char
  Loader : String
  Data : ClData
  deriving DecidableEq

/-! ## Method table (MTable.go is not among the given sources; the shapes
below are modelled from the spec (§3 Method-Table Entry) and from how
classes.go and javaLangClass.go use them). -/

/-- A bytecode method entry (JmEntry), with the fields FetchMethodAndCP
copies out of a Method, and a reference to the owning constant pool. -/
structure JmEntry where
  AccessFlags : Nat
  MaxStack : Nat
  MaxLocals : Nat
  Code : List Nat
  Exceptions : List CodeException
  attribs : List Attr
  params : List ParamAttrib
  deprecated : Bool
  Cp : CPool
  deriving DecidableEq

/-- A native-method entry (GMeth of javaLangClass.go): the operand-slot count
and the Go function, the latter modelled by its name. -/
structure GMeth where
  ParamSlots : Nat
  GFunction : String
  deriving DecidableEq

/-- The payload of a method-table entry: a bytecode method or a native. -/
inductive MethData where
  | jm : JmEntry → MethData
  | gm : GMeth → MethData
  deriving DecidableEq

/-- A method-table entry (MTentry): the payload (nil-able in Go, hence an
Option) and the single-character discriminator MType (J = bytecode,
G = native). -/
structure MTentry where
  Meth : Option MethData
  MType : Char
  deriving DecidableEq

/-- Go map lookup on MTable: an absent key yields the zero MTentry, whose
Meth is nil. -/
def lookupMT (t : List (String × MTentry)) (key : String) : MTentry :=
  match t.lookup key with
  | some e => e
  | none => ⟨none, Char.ofNat 0⟩

/-- The exit categories passed to shutdown.Exit by this code. -/
inductive ExitCode where
  | JVM_EXCEPTION
  | APP_EXCEPTION
  deriving DecidableEq

/-- The ambient state and external collaborators of the resolver:
the method area (MethAreaFetch), the method table MTable, and the two
routines that are not among the given sources, modelled from the spec as
oracles: LoadClassFromNameOnly either fails with a message or installs the
class (§4.4: on success the method area contains the entry, which the
subsequent MethAreaFetch returns), and WaitForClassStatus either fails with
a message or succeeds. -/
structure ResolverEnv where
  methArea : String → Option Klass
  mtable : List (String × MTentry)
  load : String → Except String Klass
  waitForClassStatus : String → Option String

/-- The outcome of a resolver call: either the process exits through
shutdown.Exit (with the messages logged on the way), or the call returns an
MTentry and an optional error, together with the method table as left behind
and the messages logged. -/
inductive FetchOutcome where
  | exited : ExitCode → List String → FetchOutcome
  | ret : MTentry → Option String → List (String × MTentry) → List String → FetchOutcome
  deriving DecidableEq

/-- noMainError: the scripted multi-line diagnostic logged when main() is
missing (classes.go). -/
def noMainErrorMsg (className : String) : String :=
  "Error: main() method not found in class " ++ className ++ "\n" ++
  "Please define the main method as:\n" ++
  "   public static void main(String[] args)"

/-- The part of FetchMethodAndCP after the method-table lookup missed:
wait for the class status, fetch the class from the method area, check its
loader, and look the method up in the class's method table; on a hit, wrap
it as a bytecode entry, cache it under the fully-qualified key and return
it; on a miss, log the main() diagnostic when the method is main, and
return the not-found error (the superclass ascent of the source is
commented out, so no superclass is consulted). -/
def fetchFromMethArea (env : ResolverEnv) (methArea : String → Option Klass)
    (className methName methType origClassName methFQN : String) : FetchOutcome :=
  match env.waitForClassStatus className with
  | some werr =>
    .exited .JVM_EXCEPTION ["FetchMethodAndCP: " ++ werr]
  | none =>
  match methArea className with
  | none =>
    .exited .JVM_EXCEPTION
      ["FetchMethodAndCP: MethAreaFetch could not find class " ++ className]
  | some k =>
    if k.Loader = "" then
      .ret ⟨none, Char.ofNat 0⟩
        (some ("FetchMethodAndCP: Null Loader in className: " ++ className))
        env.mtable
        ["FetchMethodAndCP: Null Loader in className: " ++ className]
    else
      match k.Data.MethodTable.lookup (methName ++ methType) with
      | some m =>
        let jme : JmEntry :=
          { AccessFlags := m.AccessFlags,
            MaxStack := m.CodeAttr.MaxStack,
            MaxLocals := m.CodeAttr.MaxLocals,
            Code := m.CodeAttr.Code,
            Exceptions := m.CodeAttr.Exceptions,
            attribs := m.CodeAttr.Attributes,
            params := m.Parameters,
            deprecated := m.Deprecated,
            Cp := k.Data.CP }
        .ret ⟨some (.jm jme), 'J'⟩ none
          ((methFQN, (⟨some (.jm jme), 'J'⟩ : MTentry)) :: env.mtable) []
      | none =>
        .ret ⟨none, Char.ofNat 0⟩
          (some ("FetchMethodAndCP: Found class " ++ className ++
            ", but it did not contain method: " ++ methName))
          env.mtable
          (if methName = "main" then [noMainErrorMsg origClassName] else [])

/-- The method-table phase of FetchMethodAndCP: a hit whose Meth is non-nil
returns directly when the discriminator is J or G; anything else falls
through to the method-area search. -/
def fetchResolved (env : ResolverEnv) (methArea : String → Option Klass)
    (className methName methType origClassName : String) : FetchOutcome :=
  let methFQN := className ++ "." ++ methName ++ methType
  let methEntry := lookupMT env.mtable methFQN
  match methEntry.Meth with
  | some d =>
    if methEntry.MType = 'J' then
      .ret ⟨some d, 'J'⟩ none env.mtable []
    else if methEntry.MType = 'G' then
      .ret ⟨some d, 'G'⟩ none env.mtable []
    else
      fetchFromMethArea env methArea className methName methType origClassName methFQN
  | none =>
    fetchFromMethArea env methArea className methName methType origClassName methFQN

/-- FetchMethodAndCP (classes.go): if the class is not yet loaded, load it —
a failed load of a class asked for main() logs the main() diagnostic and
exits, any other failed load logs and exits; then consult the method table
and, on a miss, the method area. -/
def FetchMethodAndCP (env : ResolverEnv) (className methName methType : String) :
    FetchOutcome :=
  match env.methArea className with
  | none =>
    match env.load className with
    | .error lerr =>
      if methName = "main" then
        .exited .JVM_EXCEPTION [noMainErrorMsg className]
      else
        .exited .JVM_EXCEPTION
          ["FetchMethodAndCP: LoadClassFromNameOnly for " ++ className ++
            " failed: " ++ lerr, lerr]
    | .ok knew =>
      fetchResolved env
        (fun n => if n = className then some knew else env.methArea n)
        className methName methType className
  | some _ =>
    fetchResolved env env.methArea className methName methType className

/-- FetchUTF8stringFromCPEntryNumber (classes.go): fetches the UTF8 string
for a CP entry number, returning the empty string when the entry number is
outside [1, len CpIndex) — the length is narrowed to uint16 by the source's
cast — or when the entry is not UTF8. The final Utf8Refs access is
unchecked in the source; its out-of-range case is a Go runtime fault,
modelled as none. -/
def FetchUTF8stringFromCPEntryNumber (cp : CPool) (entry : Nat) : Option String :=
  if entry < 1 ∨ cp.CpIndex.length % 65536 ≤ entry then
    some ""
  else
    match cp.CpIndex.get? entry with
    | none => none
    | some u =>
      if u.Typ ≠ UTF8 then
        some ""
      else
        cp.Utf8Refs.get? u.Slot

/-! ## Natives of java/lang/Class (javaLangClass.go, first part of the file) -/

/-- The outcome of simpleClassLoadByName: the loaded class, or a process
exit (load failure logs two messages and calls shutdown.Exit). -/
inductive SimpleLoadOutcome where
  | exited : ExitCode → List String → SimpleLoadOutcome
  | ok : Klass → SimpleLoadOutcome
  deriving DecidableEq

/-- simpleClassLoadByName: return the class from the method-area cache if
present; otherwise load it by name (LoadClassFromNameOnly is modelled by the
env oracle; on success the subsequent MethAreaFetch returns the installed
class, §4.4) — a failed load logs and exits with APP_EXCEPTION (the message
keeps the typo of the source). -/
def simpleClassLoadByName (env : ResolverEnv) (className : String) : SimpleLoadOutcome :=
  match env.methArea className with
  | some alreadyLoaded => .ok alreadyLoaded
  | none =>
    match env.load className with
    | .error e =>
      let errClassName := if className = "" then "<empty string>" else className
      .exited .APP_EXCEPTION
        ["instantiateClass()-getPrimitivelass(): Failed to load class " ++ errClassName, e]
    | .ok k => .ok k

/-- The nine-way switch of getPrimitiveClass: the wrapper class name for a
primitive descriptor word, or none for the default case. -/
def primitiveToWrapper (str : String) : Option String :=
  match str with
  | "boolean" => some "java/lang/Boolean"
  | "byte" => some "java/lang/Byte"
  | "char" => some "java/lang/Character"
  | "double" => some "java/lang/Double"
  | "float" => some "java/lang/Float"
  | "int" => some "java/lang/Integer"
  | "long" => some "java/lang/Long"
  | "short" => some "java/lang/Short"
  | "void" => some "java/lang/Void"
  | _ => none

/-- The outcome of getPrimitiveClass: a reference to the loaded class, an
error value, or a process exit from within simpleClassLoadByName. -/
inductive GPCOutcome where
  | exited : ExitCode → List String → GPCOutcome
  | classRef : Klass → GPCOutcome
  | err : String → GPCOutcome
  deriving DecidableEq

/-- getPrimitiveClass (javaLangClass.go): dispatch the descriptor word
through the nine-way switch to simpleClassLoadByName; the default case sets
a non-nil err, so the function returns the errors.New value whose message
names the unhandled word. -/
def getPrimitiveClass (env : ResolverEnv) (str : String) : GPCOutcome :=
  match primitiveToWrapper str with
  | some wrapper =>
    match simpleClassLoadByName env wrapper with
    | .exited c logs => .exited c logs
    | .ok k => .classRef k
  | none => .err ("getPrimitiveClass() does not handle: " ++ str)

/-! ## Statics (statics.go) -/

/-- A typed static value: the given statics.go revision carries the value in
typed fields (ValueInt, ValueStr, ...), while getAssertionsEnabledStatus
reads a single dynamically-typed value and asserts it to int64; this model
keeps the typed union, and the int64 type assertion succeeds exactly on the
integer arm. -/
inductive StaticValue where
  | vInt : Int → StaticValue
  | vFP : Nat → StaticValue
  | vStr : String → StaticValue
  | vRef : String → StaticValue
  | vFunc : String → StaticValue
  deriving DecidableEq

/-- getAssertionsEnabledStatus (javaLangClass.go): reads the statics store at
key main.$assertionsDisabled, asserts the value to int64 and returns 1 minus
it. A missing entry or a non-integer value makes the Go type assertion
fault, modelled as none. -/
def getAssertionsEnabledStatus (statics : List (String × StaticValue)) : Option Int :=
  match statics.lookup "main.$assertionsDisabled" with
  | some (.vInt x) => some (1 - x)
  | _ => none

/-! ## Theorems: parser offset facts -/

/-- Auxiliary: decoding one constant-pool entry advances the offset by at
least 3 bytes (the smallest entry is a tag plus a 2-byte payload). -/
theorem parseCPEntryOne_pos (bytes : List Nat) (klass : parsedClass) (pos : Nat)
    (k2 : parsedClass) (pos2 c : Nat)
    (h : parseCPEntryOne bytes klass pos = .ok (k2, pos2, c)) : pos + 3 ≤ pos2 := by
  rw [parseCPEntryOne] at h
  repeat' split at h
  all_goals try exact Except.noConfusion h
  all_goals (simp only [Except.ok.injEq, Prod.mk.injEq] at h; omega)

/-- Auxiliary: a successful run of the constant-pool entry loop never moves
the offset backwards. -/
theorem parseCPEntries_pos_le (bytes : List Nat) :
    ∀ slots pos klass pos2 k2,
      parseCPEntries bytes klass slots pos = .ok (pos2, k2) → pos ≤ pos2 := by
  intro slots
  induction slots using Nat.strong_induction_on with
  | _ slots ih =>
    intro pos klass pos2 k2 h
    match slots with
    | 0 =>
      rw [parseCPEntries] at h
      simp only [Except.ok.injEq, Prod.mk.injEq] at h
      omega
    | n + 1 =>
      rw [parseCPEntries] at h
      cases he : parseCPEntryOne bytes klass pos with
      | error e => rw [he] at h; exact Except.noConfusion h
      | ok t =>
        obtain ⟨k1, pos1, c1⟩ := t
        rw [he] at h
        simp only [] at h
        have hp := parseCPEntryOne_pos _ _ _ _ _ _ he
        by_cases hc : c1 = 2
        · rw [if_pos hc] at h
          cases n with
          | zero =>
            simp only [Except.ok.injEq, Prod.mk.injEq] at h
            omega
          | succ m =>
            simp only [] at h
            have h4 := ih m (by omega) _ _ _ _ h
            omega
        · rw [if_neg hc] at h
          have h4 := ih n (by omega) _ _ _ _ h
          omega

/-- Auxiliary: decoding at least one constant-pool entry advances the offset
by at least 3 bytes. -/
theorem parseCPEntries_pos_advance (bytes : List Nat) (slots pos : Nat)
    (klass : parsedClass) (pos2 : Nat) (k2 : parsedClass)
    (hs : 1 ≤ slots)
    (h : parseCPEntries bytes klass slots pos = .ok (pos2, k2)) : pos + 3 ≤ pos2 := by
  match slots with
  | n + 1 =>
    rw [parseCPEntries] at h
    cases he : parseCPEntryOne bytes klass pos with
    | error e => rw [he] at h; exact Except.noConfusion h
    | ok t =>
      obtain ⟨k1, pos1, c1⟩ := t
      rw [he] at h
      simp only [] at h
      have hp := parseCPEntryOne_pos _ _ _ _ _ _ he
      by_cases hc : c1 = 2
      · rw [if_pos hc] at h
        cases n with
        | zero =>
          simp only [Except.ok.injEq, Prod.mk.injEq] at h
          omega
        | succ m =>
          simp only [] at h
          have h4 := parseCPEntries_pos_le bytes m pos1 k1 pos2 k2 h
          omega
      · rw [if_neg hc] at h
        have h4 := parseCPEntries_pos_le bytes n pos1 k1 pos2 k2 h
        omega

/-- Auxiliary: a successful constant-pool-count check records a count of at
least 3 (the source rejects any count at most 2). -/
theorem getConstantPoolCount_min (bytes : List Nat) (klass k2 : parsedClass)
    (h : getConstantPoolCount bytes klass = .ok k2) : 3 ≤ k2.cpCount := by
  rw [getConstantPoolCount] at h
  cases hr : intFrom2Bytes bytes 8 with
  | error e => rw [hr] at h; exact Except.noConfusion h
  | ok c =>
    rw [hr] at h
    simp only [] at h
    by_cases hc : c ≤ 2
    · rw [if_pos hc] at h; exact Except.noConfusion h
    · rw [if_neg hc] at h
      simp only [Except.ok.injEq] at h
      subst h
      have hcc : ({ klass with cpCount := c } : parsedClass).cpCount = c := rfl
      omega

/-- Auxiliary: with at least 3 constant-pool entries, a successful
parseConstantPool leaves the offset at 12 or beyond (so the early success
return of parse at offsets below 10 is unreachable after it). -/
theorem parseConstantPool_pos_min (bytes : List Nat) (klass : parsedClass)
    (pos : Nat) (k1 : parsedClass)
    (hcc : 3 ≤ klass.cpCount)
    (h : parseConstantPool bytes klass = .ok (pos, k1)) : 12 ≤ pos := by
  rw [parseConstantPool] at h
  cases he : parseCPEntries bytes { klass with cpIndex := [⟨Dummy, 0⟩] }
      (klass.cpCount - 1) 9 with
  | error e => rw [he] at h; exact Except.noConfusion h
  | ok t =>
    obtain ⟨p0, kk⟩ := t
    rw [he] at h
    simp only [] at h
    split at h
    · simp only [Except.ok.injEq, Prod.mk.injEq] at h
      have := parseCPEntries_pos_advance bytes (klass.cpCount - 1) 9 _ p0 kk
        (by omega) he
      omega
    · exact Except.noConfusion h

/-- Auxiliary: a successful parseSuperClassName establishes the superclass
invariant: the recorded superclass name is non-empty, or the class being
parsed is java/lang/Object. -/
theorem parseSuperClassName_invariant (bytes : List Nat) (loc : Nat)
    (klass : parsedClass) (pos : Nat) (k6 : parsedClass)
    (h : parseSuperClassName bytes loc klass = .ok (pos, k6)) :
    k6.superClass ≠ "" ∨ k6.className = "java/lang/Object" := by
  rw [parseSuperClassName] at h
  repeat' split at h
  all_goals try exact Except.noConfusion h
  rename_i u heq hguard
  simp only [Except.ok.injEq, Prod.mk.injEq] at h
  obtain ⟨hpos, hk⟩ := h
  subst hk
  have h1 : ({ klass with superClass := u.content } : parsedClass).superClass
      = u.content := rfl
  have h2 : ({ klass with superClass := u.content } : parsedClass).className
      = klass.className := rfl
  rw [h1, h2]
  by_cases he : u.content = ""
  · right
    by_contra hno
    exact hguard ⟨he, hno⟩
  · left
    exact he

/-- C2 (amended): whenever parse succeeds, the superclass invariant holds:
the parsed class has a non-empty superClassName or is java/lang/Object
itself. The className non-emptiness half of the original claim is refuted
by the counterexample: no parse step checks the class name for emptiness. -/
theorem claim_C2_amended (g : Globals) (rawBytes : List Nat) (pc : parsedClass)
    (h : parse g rawBytes = .ok pc) :
    pc.superClass ≠ "" ∨ pc.className = "java/lang/Object" := by
  rw [parse] at h
  cases hm : parseMagicNumber rawBytes with
  | error e => rw [hm] at h; exact Except.noConfusion h
  | ok u =>
    rw [hm] at h
    simp only [] at h
    cases hv : parseJavaVersionNumber g rawBytes {} with
    | error e => rw [hv] at h; exact Except.noConfusion h
    | ok k1 =>
      rw [hv] at h
      simp only [] at h
      cases hcpc : getConstantPoolCount rawBytes k1 with
      | error e => rw [hcpc] at h; exact Except.noConfusion h
      | ok k2 =>
        rw [hcpc] at h
        simp only [] at h
        cases hcp : parseConstantPool rawBytes k2 with
        | error e => rw [hcp] at h; exact Except.noConfusion h
        | ok t =>
          obtain ⟨pos, k3⟩ := t
          rw [hcp] at h
          simp only [] at h
          have hmin := getConstantPoolCount_min rawBytes k1 k2 hcpc
          have hpos := parseConstantPool_pos_min rawBytes k2 pos k3 hmin hcp
          rw [if_neg (by omega)] at h
          cases haf : parseAccessFlags rawBytes pos k3 with
          | error e => rw [haf] at h; exact Except.noConfusion h
          | ok t2 =>
            obtain ⟨pos2, k4⟩ := t2
            rw [haf] at h
            simp only [] at h
            cases hcn : parseClassName rawBytes pos2 k4 with
            | error e => rw [hcn] at h; exact Except.noConfusion h
            | ok t3 =>
              obtain ⟨pos3, k5⟩ := t3
              rw [hcn] at h
              simp only [] at h
              cases hsn : parseSuperClassName rawBytes pos3 k5 with
              | error e => rw [hsn] at h; exact Except.noConfusion h
              | ok t4 =>
                obtain ⟨pos4, k6⟩ := t4
                rw [hsn] at h
                simp only [Except.ok.injEq] at h
                subst h
                exact parseSuperClassName_invariant rawBytes pos3 k5 pos4 k6 hsn

/-! ## C2: parser success vs structural invariants -/

/-- A concrete class file: magic, version 0, cp count 5, and four CP entries —
an empty UTF8 string, a ClassRef to it, the UTF8 string Sup, a ClassRef to
that — followed by access flags 0x21, this-class pointing at the ClassRef of
the empty name, super-class pointing at the ClassRef of Sup. -/
def c2CexBytes : List Nat :=
  [0xCA, 0xFE, 0xBA, 0xBE, 0x00, 0x00, 0x00, 0x00, 0x00, 0x05,
   0x01, 0x00, 0x00,
   0x07, 0x00, 0x01,
   0x01, 0x00, 0x03, 0x53, 0x75, 0x70,
   0x07, 0x00, 0x03,
   0x00, 0x21, 0x00, 0x02, 0x00, 0x04]

/-- The parsed-class value that parse produces for c2CexBytes. -/
def c2Parsed : parsedClass :=
  { javaVersion := 0, cpCount := 5,
    cpIndex := [⟨0, 0⟩, ⟨1, 0⟩, ⟨7, 0⟩, ⟨1, 1⟩, ⟨7, 1⟩],
    utf8Refs := [⟨""⟩, ⟨"Sup"⟩],
    classRefs := [⟨1⟩, ⟨3⟩],
    accessFlags := 0x21,
    classIsPublic := true, classIsSuper := true,
    className := "", superClass := "Sup" }

set_option maxHeartbeats 1600000 in
/-- C2 (counterexample): parse accepts c2CexBytes — returning success, not a
ClassFormatError — while the resulting class violates the §3 invariant that
className is non-empty: no parse step checks the class name for emptiness
(only the superclass name is checked). -/
theorem claim_C2_counterexample :
    (parse ⟨11, 55⟩ c2CexBytes).toOption.map
        (fun pc => (pc.className, pc.superClass)) = some ("", "Sup") := by
  decide

set_option maxHeartbeats 1600000 in
/-- C2 (witness): the amended theorem applied to the concrete buffer
c2CexBytes, whose parse succeeds with the explicit value c2Parsed. -/
theorem claim_C2_amended_witness :
    parse ⟨11, 55⟩ c2CexBytes = .ok c2Parsed ∧
    (c2Parsed.superClass ≠ "" ∨ c2Parsed.className = "java/lang/Object") :=
  ⟨by decide, claim_C2_amended ⟨11, 55⟩ c2CexBytes c2Parsed (by decide)⟩

/-! ## C4: the constant-pool-count gate -/

/-- A buffer whose 2-byte constant-pool count at offset 8 equals 2. -/
def c4CexBytes : List Nat :=
  [0xCA, 0xFE, 0xBA, 0xBE, 0x00, 0x00, 0x00, 0x00, 0x00, 0x02]

/-- A buffer whose 2-byte constant-pool count at offset 8 equals 3. -/
def c4WitnessBytes : List Nat :=
  [0xCA, 0xFE, 0xBA, 0xBE, 0x00, 0x00, 0x00, 0x00, 0x00, 0x03]

/-- C4 (counterexample): with the count equal to 2 the check does NOT
succeed — the source rejects any count at most 2 (cpEntryCount <= 2), so a
count of exactly 2 produces the CP-size ClassFormatError, contrary to the
claim that the count is required only to be at least 2. -/
theorem claim_C4_counterexample :
    intFrom2Bytes c4CexBytes 8 = .ok 2 ∧
    getConstantPoolCount c4CexBytes {} =
      .error (cfe "Invalid number of entries in constant pool: 2") := by
  exact ⟨by decide, by decide⟩

/-- C4 (amended): the constant-pool-count check succeeds exactly when the
2-byte count at offset 8 is at least 3, and any count at most 2 produces the
CP-size ClassFormatError naming the count. -/
theorem claim_C4_amended (bytes : List Nat) (klass : parsedClass) (c : Nat)
    (h : intFrom2Bytes bytes 8 = .ok c) :
    (3 ≤ c → getConstantPoolCount bytes klass = .ok { klass with cpCount := c }) ∧
    (c ≤ 2 → getConstantPoolCount bytes klass =
      .error (cfe ("Invalid number of entries in constant pool: " ++ toString c))) := by
  rw [getConstantPoolCount, h]
  simp only []
  constructor
  · intro hc
    rw [if_neg (by omega)]
  · intro hc
    rw [if_pos hc]

/-- C4 (witness): the amended theorem applied to a concrete buffer whose
count is 3, which the check accepts. -/
theorem claim_C4_amended_witness :
    ((3 : Nat) ≤ 3 → getConstantPoolCount c4WitnessBytes ({} : parsedClass) =
      .ok { ({} : parsedClass) with cpCount := 3 }) ∧
    ((3 : Nat) ≤ 2 → getConstantPoolCount c4WitnessBytes ({} : parsedClass) =
      .error (cfe ("Invalid number of entries in constant pool: " ++ toString (3 : Nat)))) :=
  claim_C4_amended c4WitnessBytes {} 3 (by decide)

/-! ## C5: the version gate -/

/-- A buffer with valid magic and major version 56 at offset 6. -/
def c5CexBytes : List Nat :=
  [0xCA, 0xFE, 0xBA, 0xBE, 0x00, 0x00, 0x00, 0x38]

/-- A buffer with valid magic and major version 55 at offset 6. -/
def c5WitnessBytes : List Nat :=
  [0xCA, 0xFE, 0xBA, 0xBE, 0x00, 0x00, 0x00, 0x37]

/-- C5 (counterexample): with MaxJavaVersionRaw 55 (MaxJavaVersion 11) and a
major version of 56, parsing fails with an error built by cfe — an error of
kind ClassFormatError, not of a distinct UnsupportedClassVersion kind as the
claim states. -/
theorem claim_C5_counterexample :
    parse ⟨11, 55⟩ c5CexBytes =
      .error ⟨ErrKind.classFormatError,
        "Jacobin supports only Java versions through Java 11"⟩ ∧
    ErrKind.classFormatError ≠ ErrKind.unsupportedClassVersion := by
  exact ⟨by decide, by decide⟩

/-- C5 (amended): a major version above the configured MaxJavaVersionRaw
fails with the ClassFormatError naming the maximum supported release (the
source reuses cfe; no distinct UnsupportedClassVersion kind is produced);
a major version at most MaxJavaVersionRaw — in particular, equal to it —
proceeds and is recorded in the parsed class. -/
theorem claim_C5_amended (g : Globals) (bytes : List Nat) (klass : parsedClass) (v : Nat)
    (h : intFrom2Bytes bytes 6 = .ok v) :
    (g.maxJavaVersionRaw < v →
      parseJavaVersionNumber g bytes klass =
        .error (cfe ("Jacobin supports only Java versions through Java " ++
          toString g.maxJavaVersion))) ∧
    (v ≤ g.maxJavaVersionRaw →
      parseJavaVersionNumber g bytes klass = .ok { klass with javaVersion := v }) := by
  rw [parseJavaVersionNumber, h]
  simp only []
  constructor
  · intro hv
    rw [if_pos hv]
  · intro hv
    rw [if_neg (by omega)]

/-- C5 (witness): the amended theorem applied to a concrete buffer whose
major version equals MaxJavaVersionRaw = 55: parsing proceeds and records
the version. -/
theorem claim_C5_amended_witness :
    ((⟨11, 55⟩ : Globals).maxJavaVersionRaw < 55 →
      parseJavaVersionNumber ⟨11, 55⟩ c5WitnessBytes {} =
        .error (cfe ("Jacobin supports only Java versions through Java " ++
          toString (⟨11, 55⟩ : Globals).maxJavaVersion))) ∧
    ((55 : Nat) ≤ (⟨11, 55⟩ : Globals).maxJavaVersionRaw →
      parseJavaVersionNumber ⟨11, 55⟩ c5WitnessBytes {} =
        .ok { ({} : parsedClass) with javaVersion := 55 }) :=
  claim_C5_amended ⟨11, 55⟩ c5WitnessBytes {} 55 (by decide)

/-! ## C1: the superclass walk that the source comments out -/

/-- A toString method as Parent declares it. -/
def toStringMethod : Method :=
  { AccessFlags := 1, Name := 5, Desc := 6,
    CodeAttr := { MaxStack := 1, MaxLocals := 1, Code := [0xb1],
                  Exceptions := [], Attributes := [] },
    Attributes := [], Exceptions := [], Parameters := [], Deprecated := false }

/-- Parent: linked, declares toString()Ljava/lang/String;. -/
def parentKlass : Klass :=
  { Status := 'L', Loader := "bootstrap",
    Data := { Name := "Parent", Superclass := "java/lang/Object",
              MethodTable := [("toString()Ljava/lang/String;", toStringMethod)] } }

/-- Child: linked, extends Parent, declares no methods. -/
def childKlass : Klass :=
  { Status := 'L', Loader := "bootstrap",
    Data := { Name := "Child", Superclass := "Parent" } }

/-- A resolver state with Child and Parent loaded, an empty method table,
and a healthy class-status wait. -/
def c1Env : ResolverEnv :=
  { methArea := fun n =>
      if n = "Child" then some childKlass
      else if n = "Parent" then some parentKlass else none,
    mtable := [],
    load := fun n => .error ("ClassNotFound: " ++ n),
    waitForClassStatus := fun _ => none }

/-- C1 (failing input): Child declares no toString but its superclass Parent
declares toString()Ljava/lang/String; — yet FetchMethodAndCP returns the
method-not-found error, leaves the method table untouched (no entry is
cached under Child.toString()Ljava/lang/String;) and never consults Parent:
the superclass ascent in the source is commented out, contradicting the
doc comment of FetchMethodAndCP and §4.5 of the specification. -/
theorem claim_C1_divergence :
    parentKlass.Data.MethodTable.lookup "toString()Ljava/lang/String;"
        = some toStringMethod ∧
    childKlass.Data.MethodTable.lookup "toString()Ljava/lang/String;" = none ∧
    childKlass.Data.Superclass = "Parent" ∧
    FetchMethodAndCP c1Env "Child" "toString" "()Ljava/lang/String;" =
      .ret ⟨none, Char.ofNat 0⟩
        (some "FetchMethodAndCP: Found class Child, but it did not contain method: toString")
        [] [] := by
  exact ⟨by decide, by decide, by decide, by decide⟩

/-! ## C3: missing main() in a loaded class -/

/-- C3: a loaded class (non-empty loader tag, healthy status wait) that does
not declare main with the requested descriptor, and whose fully-qualified
main key is not cached: FetchMethodAndCP emits exactly the scripted
multi-line main-not-found diagnostic naming the original class — including
the line public static void main(String[] args) — and returns an error;
the method table is left unchanged and no superclass is consulted (the
conclusion is independent of the superclass and of every other class in the
method area). -/
theorem claim_C3_main_missing (env : ResolverEnv) (className methType : String)
    (k : Klass)
    (h1 : env.methArea className = some k)
    (h2 : (lookupMT env.mtable (className ++ "." ++ "main" ++ methType)).Meth = none)
    (h3 : env.waitForClassStatus className = none)
    (h4 : ¬k.Loader = "")
    (h5 : k.Data.MethodTable.lookup ("main" ++ methType) = none) :
    FetchMethodAndCP env className "main" methType =
      .ret ⟨none, Char.ofNat 0⟩
        (some ("FetchMethodAndCP: Found class " ++ className ++
          ", but it did not contain method: main"))
        env.mtable
        ["Error: main() method not found in class " ++ className ++ "\n" ++
         "Please define the main method as:\n" ++
         "   public static void main(String[] args)"] := by
  rw [FetchMethodAndCP, h1]
  simp only []
  rw [fetchResolved]
  rw [h2]
  simp only []
  rw [fetchFromMethArea, h3]
  simp only []
  rw [h1]
  simp only []
  rw [if_neg h4, h5]
  simp [noMainErrorMsg, String.append_assoc]

/-- Foo: linked, with no methods at all. -/
def c3FooKlass : Klass :=
  { Status := 'L', Loader := "bootstrap",
    Data := { Name := "Foo", Superclass := "java/lang/Object" } }

/-- A resolver state with Foo loaded and an empty method table. -/
def c3Env : ResolverEnv :=
  { methArea := fun n => if n = "Foo" then some c3FooKlass else none,
    mtable := [],
    load := fun n => .error ("ClassNotFound: " ++ n),
    waitForClassStatus := fun _ => none }

/-- C3 (witness): the theorem applied to the concrete class Foo lacking
main([Ljava/lang/String;)V. -/
theorem claim_C3_main_missing_witness :
    FetchMethodAndCP c3Env "Foo" "main" "([Ljava/lang/String;)V" =
      .ret ⟨none, Char.ofNat 0⟩
        (some ("FetchMethodAndCP: Found class " ++ "Foo" ++
          ", but it did not contain method: main"))
        c3Env.mtable
        ["Error: main() method not found in class " ++ "Foo" ++ "\n" ++
         "Please define the main method as:\n" ++
         "   public static void main(String[] args)"] :=
  claim_C3_main_missing c3Env "Foo" "([Ljava/lang/String;)V" c3FooKlass
    (by decide) (by decide) (by decide) (by decide) (by decide)

/-! ## C6: native entries are returned as-is and never shadowed -/

/-- C6: when the method table maps the fully-qualified key to a native
entry — discriminator G with a non-nil payload — FetchMethodAndCP of a
loaded class returns exactly that entry and leaves the method table
unchanged: the bytecode-wrapping insertion is never reached, so a
pre-registered native cannot be replaced by a bytecode entry. -/
theorem claim_C6_native_preserved (env : ResolverEnv)
    (className methName methType : String) (k : Klass) (d : MethData)
    (h1 : env.methArea className = some k)
    (h2 : lookupMT env.mtable (className ++ "." ++ methName ++ methType)
      = ⟨some d, 'G'⟩) :
    FetchMethodAndCP env className methName methType =
      .ret ⟨some d, 'G'⟩ none env.mtable [] := by
  rw [FetchMethodAndCP, h1]
  simp only []
  rw [fetchResolved]
  rw [h2]
  simp

/-- The class java/lang/Class, linked, with no bytecode methods. -/
def c6Klass : Klass :=
  { Status := 'L', Loader := "bootstrap",
    Data := { Name := "java/lang/Class", Superclass := "java/lang/Object" } }

/-- A pre-registered native entry for getPrimitiveClass. -/
def c6Native : MTentry := ⟨some (.gm ⟨1, "getPrimitiveClass"⟩), 'G'⟩

/-- A resolver state whose method table holds the native entry under its
fully-qualified key. -/
def c6Env : ResolverEnv :=
  { methArea := fun n => if n = "java/lang/Class" then some c6Klass else none,
    mtable :=
      [("java/lang/Class.getPrimitiveClass(Ljava/lang/String;)Ljava/lang/Class;",
        c6Native)],
    load := fun n => .error ("ClassNotFound: " ++ n),
    waitForClassStatus := fun _ => none }

/-- C6 (witness): the theorem applied to the concrete pre-registered native
getPrimitiveClass entry. -/
theorem claim_C6_native_preserved_witness :
    FetchMethodAndCP c6Env "java/lang/Class" "getPrimitiveClass"
        "(Ljava/lang/String;)Ljava/lang/Class;" =
      .ret ⟨some (.gm ⟨1, "getPrimitiveClass"⟩), 'G'⟩ none c6Env.mtable [] :=
  claim_C6_native_preserved c6Env "java/lang/Class" "getPrimitiveClass"
    "(Ljava/lang/String;)Ljava/lang/Class;" c6Klass (.gm ⟨1, "getPrimitiveClass"⟩)
    (by decide) (by decide)

/-! ## C7: the primitive-class handler -/

/-- C7: the nine-way switch maps each primitive descriptor word to its
wrapper class; for a mapped word the handler returns the already-loaded
wrapper from the method area, or loads it on demand; for any other word it
returns the error whose message is the handler name plus the word itself
(so the message contains that word). -/
theorem claim_C7_getPrimitiveClass (env : ResolverEnv) (str w : String) (k : Klass) :
    (primitiveToWrapper "boolean" = some "java/lang/Boolean" ∧
     primitiveToWrapper "byte" = some "java/lang/Byte" ∧
     primitiveToWrapper "char" = some "java/lang/Character" ∧
     primitiveToWrapper "double" = some "java/lang/Double" ∧
     primitiveToWrapper "float" = some "java/lang/Float" ∧
     primitiveToWrapper "int" = some "java/lang/Integer" ∧
     primitiveToWrapper "long" = some "java/lang/Long" ∧
     primitiveToWrapper "short" = some "java/lang/Short" ∧
     primitiveToWrapper "void" = some "java/lang/Void") ∧
    (primitiveToWrapper str = some w → env.methArea w = some k →
      getPrimitiveClass env str = .classRef k) ∧
    (primitiveToWrapper str = some w → env.methArea w = none → env.load w = .ok k →
      getPrimitiveClass env str = .classRef k) ∧
    (primitiveToWrapper str = none →
      getPrimitiveClass env str = .err ("getPrimitiveClass() does not handle: " ++ str)) := by
  refine ⟨by decide, ?_, ?_, ?_⟩
  · intro hw hm
    rw [getPrimitiveClass, hw]
    simp only []
    rw [simpleClassLoadByName, hm]
  · intro hw hm hl
    rw [getPrimitiveClass, hw]
    simp only []
    rw [simpleClassLoadByName, hm]
    simp only []
    rw [hl]
  · intro hn
    rw [getPrimitiveClass, hn]

/-- The wrapper class java/lang/Integer, linked. -/
def c7IntegerKlass : Klass :=
  { Status := 'L', Loader := "bootstrap",
    Data := { Name := "java/lang/Integer", Superclass := "java/lang/Number" } }

/-- A state with java/lang/Integer loaded. -/
def c7Env : ResolverEnv :=
  { methArea := fun n => if n = "java/lang/Integer" then some c7IntegerKlass else none,
    mtable := [],
    load := fun n => .error ("ClassNotFound: " ++ n),
    waitForClassStatus := fun _ => none }

/-- C7 (witness): the theorem applied concretely — the word int yields the
loaded java/lang/Integer class, and the word unreal yields the error whose
message contains unreal. -/
theorem claim_C7_getPrimitiveClass_witness :
    getPrimitiveClass c7Env "int" = .classRef c7IntegerKlass ∧
    getPrimitiveClass c7Env "unreal" =
      .err ("getPrimitiveClass() does not handle: " ++ "unreal") :=
  ⟨(claim_C7_getPrimitiveClass c7Env "int" "java/lang/Integer" c7IntegerKlass).2.1
      (by decide) (by decide),
   (claim_C7_getPrimitiveClass c7Env "unreal" "" c7IntegerKlass).2.2.2 (by decide)⟩

/-! ## C8: the assertion-status native -/

/-- C8: with an integer value stored in the statics store under
main.$assertionsDisabled, the native returns 1 minus that value: 0 gives 1
and 1 gives 0. -/
theorem claim_C8_assertion_status (statics : List (String × StaticValue)) (x : Int)
    (h : statics.lookup "main.$assertionsDisabled" = some (.vInt x)) :
    getAssertionsEnabledStatus statics = some (1 - x) ∧
    (x = 0 → getAssertionsEnabledStatus statics = some 1) ∧
    (x = 1 → getAssertionsEnabledStatus statics = some 0) := by
  rw [getAssertionsEnabledStatus, h]
  simp only []
  refine ⟨trivial, ?_, ?_⟩
  · intro hx
    subst hx
    norm_num
  · intro hx
    subst hx
    norm_num

/-- C8 (witness): the theorem applied to a store holding the value 0: the
native returns 1. -/
theorem claim_C8_assertion_status_witness :
    getAssertionsEnabledStatus [("main.$assertionsDisabled", StaticValue.vInt 0)]
        = some (1 - 0) ∧
    ((0 : Int) = 0 →
      getAssertionsEnabledStatus [("main.$assertionsDisabled", StaticValue.vInt 0)]
        = some 1) ∧
    ((0 : Int) = 1 →
      getAssertionsEnabledStatus [("main.$assertionsDisabled", StaticValue.vInt 0)]
        = some 0) :=
  claim_C8_assertion_status [("main.$assertionsDisabled", StaticValue.vInt 0)] 0
    (by decide)

/-! ## C9: UTF8 fetch validation -/

/-- C9: for a pool whose primary index is uint16-sized (as every pool built
from the 2-byte CP count is), the fetch returns the empty string when the
entry number is below 1, at or past the end of the primary index, or
targets a non-UTF8 entry; otherwise it returns exactly the string stored in
Utf8Refs at the entry's slot (provided that slot holds a string — see C10
for the unchecked-slot caveat). -/
theorem claim_C9_fetch_utf8 (cp : CPool) (entry : Nat)
    (hlen : cp.CpIndex.length < 65536) :
    ((entry < 1 ∨ cp.CpIndex.length ≤ entry) →
      FetchUTF8stringFromCPEntryNumber cp entry = some "") ∧
    (∀ u, cp.CpIndex.get? entry = some u → 1 ≤ entry →
      (u.Typ ≠ UTF8 → FetchUTF8stringFromCPEntryNumber cp entry = some "") ∧
      (u.Typ = UTF8 → ∀ s, cp.Utf8Refs.get? u.Slot = some s →
        FetchUTF8stringFromCPEntryNumber cp entry = some s)) := by
  have hmod : cp.CpIndex.length % 65536 = cp.CpIndex.length := Nat.mod_eq_of_lt hlen
  constructor
  · intro hcond
    rw [FetchUTF8stringFromCPEntryNumber, hmod, if_pos hcond]
  · intro u hu h1
    have hlt : entry < cp.CpIndex.length := by
      by_contra hge
      push_neg at hge
      have h0 : cp.CpIndex.get? entry = none := List.get?_eq_none.mpr hge
      rw [h0] at hu
      exact Option.noConfusion hu
    constructor
    · intro hne
      rw [FetchUTF8stringFromCPEntryNumber, hmod, if_neg (by omega), hu]
      simp only []
      rw [if_pos hne]
    · intro hty s hs
      rw [FetchUTF8stringFromCPEntryNumber, hmod, if_neg (by omega), hu]
      simp only []
      rw [if_neg (not_not_intro hty), hs]

/-- A small pool: the dummy entry, a UTF8 entry at slot 0, an IntConst. -/
def c9Pool : CPool :=
  { CpIndex := [⟨0, 0⟩, ⟨1, 0⟩, ⟨3, 0⟩], Utf8Refs := ["hello"], IntConsts := [42] }

/-- C9 (witness): the theorem applied to the concrete pool — a valid UTF8
entry yields its string; a non-UTF8 entry, entry 0 and an out-of-range
entry yield the empty string. -/
theorem claim_C9_fetch_utf8_witness :
    FetchUTF8stringFromCPEntryNumber c9Pool 1 = some "hello" ∧
    FetchUTF8stringFromCPEntryNumber c9Pool 2 = some "" ∧
    FetchUTF8stringFromCPEntryNumber c9Pool 0 = some "" ∧
    FetchUTF8stringFromCPEntryNumber c9Pool 7 = some "" :=
  ⟨((claim_C9_fetch_utf8 c9Pool 1 (by decide)).2 ⟨1, 0⟩ (by decide) (by decide)).2
      (by decide) "hello" (by decide),
   ((claim_C9_fetch_utf8 c9Pool 2 (by decide)).2 ⟨3, 0⟩ (by decide) (by decide)).1
      (by decide),
   (claim_C9_fetch_utf8 c9Pool 0 (by decide)).1 (by decide),
   (claim_C9_fetch_utf8 c9Pool 7 (by decide)).1 (by decide)⟩

/-! ## C10: the unchecked Slot field -/

/-- A pool violating the slot precondition: a UTF8 entry whose Slot points
past the end of Utf8Refs. -/
def c10BadPool : CPool := { CpIndex := [⟨0, 0⟩, ⟨1, 5⟩], Utf8Refs := [] }

/-- C10: the fetch validates only the entry-number range and the UTF8 tag,
never the Slot field. Under the well-formedness precondition that every
UTF8-tagged primary-index entry has its Slot inside Utf8Refs, the final
Utf8Refs access is in bounds and the function is total (returns a value for
every entry number); the precondition is not checked by the function
itself — on the violating pool c10BadPool the final access falls out of
bounds (a Go runtime fault, modelled as none) instead of any validation
result. -/
theorem claim_C10_slot_safety (cp : CPool)
    (hwf : ∀ u ∈ cp.CpIndex, u.Typ = UTF8 → u.Slot < cp.Utf8Refs.length) :
    (∀ entry : Nat, (FetchUTF8stringFromCPEntryNumber cp entry).isSome = true) ∧
    FetchUTF8stringFromCPEntryNumber c10BadPool 1 = none := by
  constructor
  · intro entry
    rw [FetchUTF8stringFromCPEntryNumber]
    by_cases hc : entry < 1 ∨ cp.CpIndex.length % 65536 ≤ entry
    · rw [if_pos hc]
      rfl
    · rw [if_neg hc]
      push_neg at hc
      have hmle := Nat.mod_le cp.CpIndex.length 65536
      have hlt : entry < cp.CpIndex.length := by omega
      cases hu : cp.CpIndex.get? entry with
      | none =>
        have := List.get?_eq_none.mp hu
        omega
      | some u =>
        simp only []
        by_cases ht : u.Typ = UTF8
        · rw [if_neg (not_not_intro ht)]
          have hmem : u ∈ cp.CpIndex := List.get?_mem hu
          have hslot := hwf u hmem ht
          rw [List.get?_eq_get hslot]
          rfl
        · rw [if_pos ht]
          rfl
  · decide

/-- A well-formed pool for the witness. -/
def c10Pool : CPool :=
  { CpIndex := [⟨0, 0⟩, ⟨1, 1⟩, ⟨3, 0⟩], Utf8Refs := ["a", "b"], IntConsts := [7] }

/-- C10 (witness): the theorem applied to the concrete well-formed pool
c10Pool, evaluated at an in-range entry, at 0 and past the end. -/
theorem claim_C10_slot_safety_witness :
    (FetchUTF8stringFromCPEntryNumber c10Pool 1).isSome = true ∧
    (FetchUTF8stringFromCPEntryNumber c10Pool 0).isSome = true ∧
    (FetchUTF8stringFromCPEntryNumber c10Pool 9).isSome = true :=
  ⟨(claim_C10_slot_safety c10Pool (by decide)).1 1,
   (claim_C10_slot_safety c10Pool (by decide)).1 0,
   (claim_C10_slot_safety c10Pool (by decide)).1 9⟩

end Jacobin
